import Mathlib

/-!
Shallow embedding of `fiona/collection.py` (the `Collection` and
`BytesCollection` classes together with the module-level `get_filetype`
helper).  The native GDAL/OGR layer (`Session`, `WritingSession`,
iterators, the driver registry environment) is external to the
repository; its observable behaviour is modelled by explicit state
records and oracle parameters: wherever the Python code calls into the
native session and then reads values back (`get_length`, `get_extent`,
...), the embedding takes the post-call session view as an argument and
quantifies over it.  Python exceptions are modelled by an error type and
`Except`; machine state mutated by a method is returned functionally.
-/

namespace Fiona

/-- Collection access mode: `'r'`, `'a'` or `'w'` in the Python source. -/
inductive Mode
  | r
  | a
  | w
deriving DecidableEq, Repr

/-- The Python exception classes raised by `collection.py`.  `attributeError`
models the `AttributeError` Python itself raises when a method is looked up
on `None` (e.g. `self.session.has_feature` after `close()` has set
`self.session = None`). -/
inductive FError
  | typeError (msg : String)
  | valueError (msg : String)
  | ioError (msg : String)
  | driverError (msg : String)
  | schemaError (msg : String)
  | crsError (msg : String)
  | attributeError (msg : String)
deriving DecidableEq, Repr

/-- State errors in the sense of the error-handling taxonomy: the
`ValueError("I/O operation on closed collection")` raised for a closed
collection and the `IOError("collection not open for ...")` raised for a
wrong-mode operation are the two state-error shapes in `collection.py`. -/
def isStateError : FError → Bool
  | FError.valueError _ => true
  | FError.ioError _ => true
  | _ => false

/-- A dataset schema: `schema['geometry']` and the keys of
`schema['properties']` (only property keys matter to `validate_record`). -/
structure Schema where
  geometry : String
  propertyKeys : List String
deriving DecidableEq, Repr

/-- A GeoJSON-like record as far as `collection.py` inspects it:
`record['geometry']['type']` and the keys of `record['properties']`. -/
structure Record where
  geometryType : String
  propertyKeys : List String
deriving DecidableEq, Repr

/-- A GeoJSON-like geometry mapping used as a `mask` filter.  Only its
presence matters to the claims; as a non-empty mapping it is truthy in
Python. -/
structure Geometry where
  geomType : String
deriving DecidableEq, Repr

/-- A bounding box `(minx, miny, maxx, maxy)`.  Coordinates are modelled
as integers; no claim computes with coordinate values, they are only
stored and reported. -/
def BBox := Int × Int × Int × Int
deriving DecidableEq, Repr

/-- Observable state of an open native OGR session: the values its
introspection methods return at a given moment.  `featureIds` backs
`has_feature` and `features` backs `Session.__getitem__`; the native
feature store is finite.  After a native call that can change the
dataset (`writerecs`, `sync`), the Python code re-reads these values;
the embedding passes the post-call view in explicitly. -/
structure SessionState where
  length : Int
  extent : Option BBox
  driver : String
  schema : Schema
  crs : String
  crs_wkt : String
  featureIds : List Nat
  features : List (Nat × Record)
deriving DecidableEq, Repr

/-- The kind of iterator built by `filter` (`Iterator`), `items`
(`ItemsIterator`) and `keys` (`KeysIterator`). -/
inductive IterKind
  | features
  | items
  | keys
deriving DecidableEq, Repr

/-- An iterator object as constructed at the end of `filter`/`items`/`keys`:
its kind together with the slice and spatial-filter arguments it was
built from. -/
structure Iterator where
  kind : IterKind
  start : Option Int
  stop : Option Int
  step : Option Int
  bbox : Option BBox
  mask : Option Geometry
deriving DecidableEq, Repr

/-- The mutable state of a `Collection` object.  Field names follow the
Python attributes (`self._len`, `self._bounds`, ...).  `session = none`
is Python's `self.session = None`; `env` records whether `self.env`
holds the entered `AWSGDALEnv` (it is set in `__init__` and never
cleared, which matters for repeated `close()`). -/
structure Collection where
  mode : Mode
  session : Option SessionState
  iterator : Option Iterator
  _len : Int
  _bounds : Option BBox
  _driver : Option String
  _schema : Option Schema
  _crs : Option String
  _crs_wkt : Option String
  env : Bool
deriving DecidableEq, Repr

/-- `Collection.closed`: `True` iff `self.session is None`. -/
def Collection.closed (c : Collection) : Bool :=
  c.session.isNone

/-- `Collection.driver` property: if `self._driver` is unset (falsy) and the
mode is `'a'` or `'r'` and a session is open, it is fetched from the
session; the value returned is what the property yields. -/
def Collection.driverProp (c : Collection) : Option String :=
  match c._driver with
  | some d => some d
  | none =>
    if c.mode = Mode.a ∨ c.mode = Mode.r then
      match c.session with
      | some s => some s.driver
      | none => none
    else none

/-- `Collection.schema` property, with the same lazy-fetch shape as
`Collection.driver`. -/
def Collection.schemaProp (c : Collection) : Option Schema :=
  match c._schema with
  | some s => some s
  | none =>
    if c.mode = Mode.a ∨ c.mode = Mode.r then
      match c.session with
      | some s => some s.schema
      | none => none
    else none

/-- `Collection.crs_wkt` property: `self._crs_wkt` if already set, else
fetched from the open session. -/
def Collection.crsWktProp (c : Collection) : Option String :=
  match c._crs_wkt with
  | some w => some w
  | none =>
    match c.session with
    | some s => some s.crs_wkt
    | none => none

/-- `Collection.filter`: the closed check, the read-mode check, the check
that at most one of `bbox` and `mask` is supplied, and on success the
construction and storage of the iterator.  A supplied `bbox` is a
non-empty 4-tuple and a supplied `mask` a non-empty geometry mapping,
both truthy in Python, so `if bbox and mask` is modelled by both options
being `some`.  An error result models a raised exception, leaving the
collection state (in particular `self.iterator`) unchanged. -/
def Collection.filter (c : Collection) (start stop step : Option Int)
    (bbox : Option BBox) (mask : Option Geometry) :
    Except FError (Collection × Iterator) :=
  if c.closed = true then
    Except.error (FError.valueError "I/O operation on closed collection")
  else if c.mode ≠ Mode.r then
    Except.error (FError.ioError "collection not open for reading")
  else if bbox.isSome = true ∧ mask.isSome = true then
    Except.error (FError.valueError "mask and bbox can not be set together")
  else
    let it : Iterator := ⟨IterKind.features, start, stop, step, bbox, mask⟩
    Except.ok ({ c with iterator := some it }, it)

/-- `Collection.items`: same body as `filter` but building an
`ItemsIterator`. -/
def Collection.items (c : Collection) (start stop step : Option Int)
    (bbox : Option BBox) (mask : Option Geometry) :
    Except FError (Collection × Iterator) :=
  if c.closed = true then
    Except.error (FError.valueError "I/O operation on closed collection")
  else if c.mode ≠ Mode.r then
    Except.error (FError.ioError "collection not open for reading")
  else if bbox.isSome = true ∧ mask.isSome = true then
    Except.error (FError.valueError "mask and bbox can not be set together")
  else
    let it : Iterator := ⟨IterKind.items, start, stop, step, bbox, mask⟩
    Except.ok ({ c with iterator := some it }, it)

/-- `Collection.keys`: same body as `filter` but building a
`KeysIterator`. -/
def Collection.keys (c : Collection) (start stop step : Option Int)
    (bbox : Option BBox) (mask : Option Geometry) :
    Except FError (Collection × Iterator) :=
  if c.closed = true then
    Except.error (FError.valueError "I/O operation on closed collection")
  else if c.mode ≠ Mode.r then
    Except.error (FError.ioError "collection not open for reading")
  else if bbox.isSome = true ∧ mask.isSome = true then
    Except.error (FError.valueError "mask and bbox can not be set together")
  else
    let it : Iterator := ⟨IterKind.keys, start, stop, step, bbox, mask⟩
    Except.ok ({ c with iterator := some it }, it)

/-- `Collection.__contains__`: `return self.session.has_feature(fid)` with
no closed check.  When the collection is closed `self.session` is `None`
and the attribute lookup itself raises `AttributeError`. -/
def Collection.contains (c : Collection) (fid : Nat) : Except FError Bool :=
  match c.session with
  | some s => Except.ok (s.featureIds.contains fid)
  | none =>
    Except.error (FError.attributeError
      "NoneType object has no attribute has_feature")

/-- `Collection.__getitem__`: `return self.session.__getitem__(item)` with
no closed check; on a closed collection the lookup on `None` raises
`AttributeError`. -/
def Collection.getitem (c : Collection) (item : Nat) :
    Except FError (Option Record) :=
  match c.session with
  | some s => Except.ok (s.features.lookup item)
  | none =>
    Except.error (FError.attributeError
      "NoneType object has no attribute getitem")

/-- `Collection.writerecords`: closed check, write/append-mode check, then
`session.writerecs(records, self)` followed by re-reading length and
extent.  `postWrite` is the session view after the native `writerecs`
call. -/
def Collection.writerecords (c : Collection) (records : List Record)
    (postWrite : SessionState) : Except FError Collection :=
  if c.closed = true then
    Except.error (FError.valueError "I/O operation on closed collection")
  else if ¬ (c.mode = Mode.a ∨ c.mode = Mode.w) then
    Except.error (FError.ioError "collection not open for writing")
  else
    Except.ok { c with
      session := some postWrite
      _len := postWrite.length
      _bounds := postWrite.extent }

/-- `Collection.write`: `self.writerecords([record])`. -/
def Collection.write (c : Collection) (record : Record)
    (postWrite : SessionState) : Except FError Collection :=
  c.writerecords [record] postWrite

/-- Does the first list start with the second?  Used both for Python
`bytes.startswith` and as a building block for substring tests. -/
def startsWithList {α : Type} [BEq α] : List α → List α → Bool
  | _, [] => true
  | [], _ :: _ => false
  | a :: as, b :: bs => a == b && startsWithList as bs

/-- Python's `needle in hay` substring/containment test on sequences. -/
def containsSub {α : Type} [BEq α] (hay needle : List α) : Bool :=
  match hay with
  | [] => needle.isEmpty
  | _ :: tl => startsWithList hay needle || containsSub tl needle

/-- Python `str.lstrip(chars)`: remove leading characters as long as they
belong to the character set `chars` (not prefix removal). -/
def pyLstrip (s chars : String) : String :=
  String.mk (s.data.dropWhile (fun ch => chars.data.contains ch))

/-- `Collection.validate_record_geometry`.  The shapefile branch applies
only when the driver is `"ESRI Shapefile"` and `"Point"` does not occur
in the record's geometry type; it compares both sides after
`lstrip("Multi")`, the schema side first stripped with `lstrip("3D ")`.
Every other case requires the record type to equal the schema type after
`lstrip("3D ")`.  `none` models the `TypeError` Python raises when the
schema is unavailable (`self.schema['geometry']` on `None`). -/
def Collection.validate_record_geometry (c : Collection) (r : Record) :
    Option Bool :=
  match c.schemaProp with
  | none => none
  | some sch =>
    if c.driverProp = some "ESRI Shapefile" ∧
        containsSub r.geometryType.data "Point".data = false then
      some (pyLstrip r.geometryType "Multi" ==
        pyLstrip (pyLstrip sch.geometry "3D ") "Multi")
    else
      some (r.geometryType == pyLstrip sch.geometry "3D ")

/-- `Collection.validate_record`: property-key-set equality (value types
are not compared) `and` geometry validation, with Python's short-circuit
`and`. -/
def Collection.validate_record (c : Collection) (r : Record) : Option Bool :=
  match c.schemaProp with
  | none => none
  | some sch =>
    if r.propertyKeys.all (fun k => sch.propertyKeys.contains k) &&
        sch.propertyKeys.all (fun k => r.propertyKeys.contains k) then
      c.validate_record_geometry r
    else
      some false

/-- `Collection.__len__`: refresh `self._len` from the session when the
cached value is `<= 0` and a session is open, then raise `TypeError`
when the (possibly refreshed) value is negative, else return it.  The
returned collection carries the updated cache. -/
def Collection.len (c : Collection) : Except FError (Collection × Int) :=
  let c1 :=
    if c._len ≤ 0 then
      match c.session with
      | some s => { c with _len := s.length }
      | none => c
    else c
  if c1._len < 0 then
    Except.error (FError.typeError "Layer does not support counting")
  else
    Except.ok (c1, c1._len)

/-- `Collection.flush`: when a session is open, `session.sync(self)` then
re-read length and extent; `postSync` is the session view after the
native `sync`.  The new cached length is the Python expression
`new_len > self._len and new_len or self._len`: when the comparison is
true the `and` yields `new_len`, but a `new_len` of `0` is falsy and the
`or` then falls back to `self._len`. -/
def Collection.flush (c : Collection) (postSync : SessionState) : Collection :=
  match c.session with
  | none => c
  | some _ =>
    let new_len := postSync.length
    { c with
      session := some postSync
      _len := if new_len > c._len then
                (if new_len = 0 then c._len else new_len)
              else c._len
      _bounds := postSync.extent }

/-- Effects of a `close()` call on the native layer: the `session.sync`
performed by `flush`, the `session.stop()`, and `self.env.__exit__()`. -/
inductive Effect
  | sessionSync
  | sessionStop
  | envExit
deriving DecidableEq, Repr

/-- `Collection.close`: when a session is open, flush first in `'a'`/`'w'`
mode, stop the session and clear `self.session` and `self.iterator`;
then, whenever `self.env` is set (it is never cleared), call
`self.env.__exit__()`.  Returns the new state and the ordered list of
native-layer effects the call performs. -/
def Collection.close (c : Collection) (postSync : SessionState) :
    Collection × List Effect :=
  match c.session with
  | none =>
    if c.env then (c, [Effect.envExit]) else (c, [])
  | some _ =>
    let cf :=
      if c.mode = Mode.a ∨ c.mode = Mode.w then c.flush postSync else c
    let fx :=
      if c.mode = Mode.a ∨ c.mode = Mode.w then [Effect.sessionSync] else []
    let c2 := { cf with session := none, iterator := none }
    if c.env then (c2, fx ++ [Effect.sessionStop, Effect.envExit])
    else (c2, fx ++ [Effect.sessionStop])

/-- Python exceptions the native `session.start` call can raise, as seen
by the `try`/`except IOError` in `Collection.__init__`: an `IOError`, or
any other exception class (carried with its class name). -/
inductive PyExc
  | ioError (msg : String)
  | otherError (name msg : String)
deriving DecidableEq, Repr

/-- Outcome of the native `session.start(self, **kwargs)` call. -/
inductive StartOutcome
  | ok (s : SessionState)
  | raises (e : PyExc)
deriving DecidableEq, Repr

/-- What `self.session` holds after the constructor's session block:
`cleared` is Python `None`, `unstarted` is a `Session()`/`WritingSession()`
object whose `start` raised, `started` a successfully started session. -/
inductive SessionSlot
  | cleared
  | unstarted
  | started (s : SessionState)
deriving DecidableEq, Repr

/-- Handle state after the `__init__` session block, together with
counters for the scoped runtime context: `env.__enter__()` and
`env.__exit__()` calls made inside `__init__`. -/
structure InitState where
  sessionSlot : SessionSlot
  envEntered : Nat
  envExited : Nat
deriving DecidableEq, Repr

/-- `closed` for a partially constructed handle: `self.session is None`. -/
def InitState.closed (h : InitState) : Bool :=
  match h.sessionSlot with
  | SessionSlot.cleared => true
  | _ => false

/-- Lines 140-160 of `Collection.__init__`: `self.env = AWSGDALEnv()` and
`self.env.__enter__()`, then `self.session = Session()` (read mode) or
`WritingSession()` (append/write), then `self.session.start(self)` inside
`try ... except IOError: self.session = None; raise`.  Only an `IOError`
clears the session; no branch of `__init__` calls `env.__exit__()`.  The
second component is the exception propagated to the caller, if any. -/
def openSession (mode : Mode) (outcome : StartOutcome) :
    InitState × Option PyExc :=
  match mode, outcome with
  | _, StartOutcome.ok s =>
    (⟨SessionSlot.started s, 1, 0⟩, none)
  | _, StartOutcome.raises (PyExc.ioError m) =>
    (⟨SessionSlot.cleared, 1, 0⟩, some (PyExc.ioError m))
  | _, StartOutcome.raises e =>
    (⟨SessionSlot.unstarted, 1, 0⟩, some e)

/-- Python truthiness of an optional string: `None` and `""` are falsy. -/
def pyTruthy : Option String → Bool
  | none => false
  | some s => s ≠ ""

/-- The test on line 135: `'init' in crs or 'proj' in crs or 'epsg' in
crs.lower()` for a string-valued `crs`. -/
def crsHasParams (s : String) : Bool :=
  containsSub s.data "init".data || containsSub s.data "proj".data ||
    containsSub s.toLower.data "epsg".data

/-- Lines 132-138 of `Collection.__init__` (write mode): a truthy
`crs_wkt` is stored in `self._crs_wkt`; otherwise a truthy `crs` is
stored in `self._crs` if it carries recognisable parameters, else
`CRSError` is raised.  Returns `(self._crs, self._crs_wkt)`. -/
def setWriteCrs (crs crs_wkt : Option String) :
    Except FError (Option String × Option String) :=
  if pyTruthy crs_wkt then Except.ok (none, crs_wkt)
  else
    match crs with
    | some s =>
      if s ≠ "" then
        if crsHasParams s then Except.ok (some s, none)
        else Except.error (FError.crsError "crs lacks init or proj parameter")
      else Except.ok (none, none)
    | none => Except.ok (none, none)

/-- The zip local-file-header signature `PK\x03\x04`. -/
def zipSig : List Nat := [0x50, 0x4B, 0x03, 0x04]

/-- `get_filetype(bytesbuf)`: `'zip'` when `bytesbuf[:4]` starts with the
zip signature, else `''`.  A byte buffer is modelled as a list of byte
values. -/
def get_filetype (bytesbuf : List Nat) : String :=
  if startsWithList (bytesbuf.take 4) zipSig then "zip" else ""

/-- The virtual-file naming logic of `BytesCollection.__init__`: the
extension chosen for `buffer_to_virtual_file` and the `vsi` tag passed to
the parent constructor (the `filetype`, used by the archive-aware path
resolver when it is `'zip'`). -/
def bytesCollectionExt (bytesbuf : List Nat) (driver : Option String) :
    String × String :=
  let filetype := get_filetype bytesbuf
  let ext :=
    if filetype = "zip" then ".zip"
    else if driver = some "GeoJSON" then ".json"
    else ""
  (ext, filetype)

/-! Spec-side notions for the geometry-validation claim: literal prefix
removal (the spec's "with the Multi prefix disregarded" and "removing a
leading 3D-dimensionality marker"), stated over the OGR geometry-type
vocabulary on which the code's character-set `lstrip` agrees with prefix
removal. -/

/-- Spec-side: disregard a literal `"Multi"` at the head of a geometry
type name. -/
def specMultiTrim (s : String) : String :=
  if startsWithList s.data "Multi".data then String.mk (s.data.drop 5) else s

/-- Spec-side: remove a literal leading `"3D "` dimensionality marker. -/
def spec3DTrim (s : String) : String :=
  if startsWithList s.data "3D ".data then String.mk (s.data.drop 3) else s

/-- The OGR geometry type names a record's `geometry['type']` can carry. -/
def ogrGeomTypes : List String :=
  ["Point", "LineString", "Polygon", "MultiPoint", "MultiLineString",
   "MultiPolygon", "GeometryCollection"]

/-- Schema geometry values: the OGR type names, optionally carrying the
`"3D "` dimensionality marker. -/
def schemaGeomVocab : List String :=
  ogrGeomTypes ++ ogrGeomTypes.map (fun t => "3D " ++ t)

lemma multiTrim_bridge :
    ∀ t ∈ ogrGeomTypes, pyLstrip t "Multi" = specMultiTrim t := by decide

lemma threeDTrim_bridge :
    ∀ s ∈ schemaGeomVocab, pyLstrip s "3D " = spec3DTrim s := by decide

lemma multi3D_bridge :
    ∀ s ∈ schemaGeomVocab,
      pyLstrip (pyLstrip s "3D ") "Multi" = specMultiTrim (spec3DTrim s) := by
  decide

lemma pointSub_bridge :
    ∀ t ∈ ogrGeomTypes,
      containsSub t.data "Point".data =
        decide (t ∈ (["Point", "MultiPoint"] : List String)) := by decide

/-! Concrete states used by counterexamples and witnesses. -/

/-- A generic open-session view. -/
def sessA : SessionState :=
  ⟨0, none, "GeoJSON", ⟨"Point", []⟩, "", "", [], []⟩

/-- A closed read-mode collection (`close()` already ran). -/
def closedColl : Collection :=
  ⟨Mode.r, none, none, 0, none, none, none, none, none, true⟩

/-- An open write-mode collection whose cached length is the `-1` a
counting-incapable driver reported earlier. -/
def cNeg3 : Collection :=
  ⟨Mode.w, some sessA, none, -1, none, some "GeoJSON", some ⟨"Point", []⟩,
    none, none, true⟩

/-- A post-`sync` session view reporting length `0`. -/
def sZero3 : SessionState := { sessA with length := 0 }

/-- An open write-mode collection with a positive cached length. -/
def cW3 : Collection := { cNeg3 with _len := 2 }

/-- A post-`sync` session view reporting length `5`. -/
def sW3 : SessionState :=
  { sessA with length := 5, extent := some ((0, 0, 1, 1) : BBox) }

/-- A write-mode shapefile collection whose schema geometry is `Point`. -/
def c4x : Collection :=
  ⟨Mode.w, none, none, 0, none, some "ESRI Shapefile",
    some ⟨"Point", ["name"]⟩, none, none, true⟩

/-- A `MultiPoint` record. -/
def r4x : Record := ⟨"MultiPoint", ["name"]⟩

/-- A write-mode shapefile collection whose schema geometry is `Polygon`. -/
def c4w : Collection :=
  ⟨Mode.w, none, none, 0, none, some "ESRI Shapefile",
    some ⟨"Polygon", ["name"]⟩, none, none, true⟩

/-- A `MultiPolygon` record. -/
def r4w : Record := ⟨"MultiPolygon", ["name"]⟩

/-- The schema of `c4w`. -/
def sch4w : Schema := ⟨"Polygon", ["name"]⟩

/-- An open read-mode collection. -/
def cR5 : Collection :=
  ⟨Mode.r, some sessA, none, 0, none, none, none, none, none, true⟩

/-- An open read-mode collection with the runtime context entered. -/
def cOpen6 : Collection :=
  ⟨Mode.r, some sessA, none, 0, none, none, none, none, none, true⟩

/-- The state of `cOpen6` after a first `close()`. -/
def cDone6 : Collection := { cOpen6 with session := none }

/-- A write-mode collection built with both `crs` and `crs_wkt` given:
lines 132-133 stored the WKT string. -/
def c7w : Collection :=
  ⟨Mode.w, none, none, 0, none, some "GeoJSON", some ⟨"Point", []⟩, none,
    some "GEOGCS WGS 84", true⟩

/-- A session view reporting the negative length `-1`. -/
def sNeg10 : SessionState := { sessA with length := -1 }

/-- An open collection with positive cached length `5` over `sNeg10`. -/
def cPos10 : Collection :=
  ⟨Mode.r, some sNeg10, none, 5, none, none, none, none, none, true⟩

/-- A session view reporting length `7`. -/
def s10w : SessionState := { sessA with length := 7 }

/-- A freshly opened collection (cached length `0`) over `s10w`. -/
def c10w : Collection :=
  ⟨Mode.r, some s10w, none, 0, none, none, none, none, none, true⟩

/-! Claim theorems. -/

/-- Claim C1, amended: on a closed collection the iterator entry points
`filter`, `items` and `keys` raise the descriptive state error
`ValueError("I/O operation on closed collection")`, but membership
testing (`fid in collection`) and item lookup (`collection[item]`) have
no closed check: they call a method on the absent (`None`) session and
fail with an `AttributeError`, which is not a state error. -/
theorem fiona_c1_theorem (c : Collection) (fid item : Nat)
    (start stop step : Option Int) (bbox : Option BBox)
    (mask : Option Geometry) (h : c.closed = true) :
    c.filter start stop step bbox mask =
      Except.error (FError.valueError "I/O operation on closed collection") ∧
    c.items start stop step bbox mask =
      Except.error (FError.valueError "I/O operation on closed collection") ∧
    c.keys start stop step bbox mask =
      Except.error (FError.valueError "I/O operation on closed collection") ∧
    isStateError (FError.valueError "I/O operation on closed collection")
      = true ∧
    c.contains fid =
      Except.error (FError.attributeError
        "NoneType object has no attribute has_feature") ∧
    c.getitem item =
      Except.error (FError.attributeError
        "NoneType object has no attribute getitem") ∧
    isStateError (FError.attributeError
      "NoneType object has no attribute has_feature") = false := by
  have hs : c.session = none := Option.isNone_iff_eq_none.mp h
  refine ⟨?_, ?_, ?_, rfl, ?_, ?_, rfl⟩
  · simp [Collection.filter, h]
  · simp [Collection.items, h]
  · simp [Collection.keys, h]
  · simp [Collection.contains, hs]
  · simp [Collection.getitem, hs]

/-- Claim C1, counterexample to the claim as stated: on a concrete closed
collection the membership test fails with an `AttributeError`, not with
a state error. -/
theorem fiona_c1_cex :
    closedColl.closed = true ∧
    closedColl.contains 3 =
      Except.error (FError.attributeError
        "NoneType object has no attribute has_feature") ∧
    isStateError (FError.attributeError
      "NoneType object has no attribute has_feature") = false :=
  ⟨rfl, rfl, rfl⟩

/-- Claim C1, witness: the amended theorem applied to a concrete closed
collection. -/
theorem fiona_c1_witness :
    closedColl.closed = true ∧
    (closedColl.filter none none none none none =
      Except.error (FError.valueError "I/O operation on closed collection") ∧
    closedColl.items none none none none none =
      Except.error (FError.valueError "I/O operation on closed collection") ∧
    closedColl.keys none none none none none =
      Except.error (FError.valueError "I/O operation on closed collection") ∧
    isStateError (FError.valueError "I/O operation on closed collection")
      = true ∧
    closedColl.contains 0 =
      Except.error (FError.attributeError
        "NoneType object has no attribute has_feature") ∧
    closedColl.getitem 0 =
      Except.error (FError.attributeError
        "NoneType object has no attribute getitem") ∧
    isStateError (FError.attributeError
      "NoneType object has no attribute has_feature") = false) :=
  ⟨rfl, fiona_c1_theorem closedColl 0 0 none none none none none rfl⟩

/-- Claim C2, amended: when `session.start` raises inside the constructor,
the original exception is always re-raised unchanged, but only an
`IOError` leaves the handle closed (`self.session = None`); any other
exception leaves the partially-initialized session object assigned, and
on no failure path does `__init__` release (exit) the runtime context it
entered — release is deferred to a later `close()`. -/
theorem fiona_c2_theorem (mode : Mode) (e : PyExc) :
    (openSession mode (StartOutcome.raises e)).2 = some e ∧
    ((openSession mode (StartOutcome.raises e)).1.closed = true ↔
      ∃ m, e = PyExc.ioError m) ∧
    (openSession mode (StartOutcome.raises e)).1.envEntered = 1 ∧
    (openSession mode (StartOutcome.raises e)).1.envExited = 0 := by
  cases e with
  | ioError m =>
    exact ⟨rfl, ⟨fun _ => ⟨m, rfl⟩, fun _ => rfl⟩, rfl, rfl⟩
  | otherError n m =>
    refine ⟨rfl, ⟨fun hc => ?_, fun hm => ?_⟩, rfl, rfl⟩
    · simp [openSession, InitState.closed] at hc
    · rcases hm with ⟨m1, hm1⟩
      cases hm1

/-- Claim C2, counterexample to the claim as stated: a non-`IOError`
failure of `session.start` leaves the handle non-closed, and even on the
`IOError` path the runtime context entered by the constructor is not
exited there. -/
theorem fiona_c2_cex :
    (openSession Mode.w (StartOutcome.raises
      (PyExc.otherError "DriverError" "no driver"))).1.closed = false ∧
    (openSession Mode.r (StartOutcome.raises
      (PyExc.ioError "open failed"))).1.envEntered = 1 ∧
    (openSession Mode.r (StartOutcome.raises
      (PyExc.ioError "open failed"))).1.envExited = 0 :=
  ⟨rfl, rfl, rfl⟩

/-- Claim C2, witness: the amended theorem applied to a concrete
`IOError` outcome. -/
theorem fiona_c2_witness :
    (openSession Mode.r (StartOutcome.raises (PyExc.ioError "open failed"))).2
      = some (PyExc.ioError "open failed") ∧
    ((openSession Mode.r (StartOutcome.raises
        (PyExc.ioError "open failed"))).1.closed = true ↔
      ∃ m, PyExc.ioError "open failed" = PyExc.ioError m) ∧
    (openSession Mode.r (StartOutcome.raises
      (PyExc.ioError "open failed"))).1.envEntered = 1 ∧
    (openSession Mode.r (StartOutcome.raises
      (PyExc.ioError "open failed"))).1.envExited = 0 :=
  fiona_c2_theorem Mode.r (PyExc.ioError "open failed")

/-- Claim C3, amended: on an open collection `flush()` refreshes the
cached bounding extent from the session, and sets the cached length to
the maximum of the old cached length and the freshly reported length in
every case except one: when the fresh length is `0` (falsy in Python)
and the cached length is negative, the truthiness-based `and`/`or`
maximum keeps the old negative value instead of the maximum `0`. -/
theorem fiona_c3_theorem (c : Collection) (s : SessionState)
    (h : c.closed = false) :
    (c.flush s)._len =
      (if s.length = 0 ∧ c._len < 0 then c._len
       else max c._len s.length) ∧
    (c.flush s)._bounds = s.extent := by
  obtain ⟨s0, hs⟩ : ∃ s0, c.session = some s0 := by
    cases hc : c.session with
    | none => simp [Collection.closed, hc] at h
    | some s0 => exact ⟨s0, rfl⟩
  unfold Collection.flush
  rw [hs]
  refine ⟨?_, rfl⟩
  show (if s.length > c._len then
          (if s.length = 0 then c._len else s.length)
        else c._len) = _
  simp only [max_def]
  split_ifs <;> omega

/-- Claim C3, counterexample to the claim as stated: with cached length
`-1` and a fresh length of `0`, `flush` leaves the cached length at `-1`
although the maximum of the two is `0`. -/
theorem fiona_c3_cex :
    cNeg3.closed = false ∧ cNeg3._len = -1 ∧ sZero3.length = 0 ∧
    (cNeg3.flush sZero3)._len = -1 ∧
    max cNeg3._len sZero3.length = 0 :=
  ⟨rfl, rfl, rfl, rfl, by decide⟩

/-- Claim C3, witness: the amended theorem applied to a concrete open
collection whose fresh length is positive. -/
theorem fiona_c3_witness :
    cW3.closed = false ∧
    ((cW3.flush sW3)._len =
      (if sW3.length = 0 ∧ cW3._len < 0 then cW3._len
       else max cW3._len sW3.length) ∧
    (cW3.flush sW3)._bounds = sW3.extent) :=
  ⟨rfl, fiona_c3_theorem cW3 sW3 rfl⟩

/-- Claim C4, amended: over the OGR geometry-type vocabulary, record
geometry validation disregards a literal `Multi` prefix on both sides
(after removing a leading `3D ` marker on the schema side) when the
driver is the shapefile family AND the record's geometry type is not in
the Point family (`Point`/`MultiPoint`); Point-family records under the
shapefile driver, and all records under every other driver, must match
the schema geometry type exactly after removing only the leading `3D `
marker on the schema side. -/
theorem fiona_c4_theorem (c : Collection) (r : Record) (sch : Schema)
    (hs : c.schemaProp = some sch)
    (hr : r.geometryType ∈ ogrGeomTypes)
    (hg : sch.geometry ∈ schemaGeomVocab) :
    c.validate_record_geometry r =
      some (if c.driverProp = some "ESRI Shapefile" ∧
              r.geometryType ∉ (["Point", "MultiPoint"] : List String) then
              specMultiTrim r.geometryType ==
                specMultiTrim (spec3DTrim sch.geometry)
            else r.geometryType == spec3DTrim sch.geometry) := by
  have h1 := multiTrim_bridge r.geometryType hr
  have h2 := multi3D_bridge sch.geometry hg
  have h3 := threeDTrim_bridge sch.geometry hg
  have h4 := pointSub_bridge r.geometryType hr
  have hiff : (containsSub r.geometryType.data "Point".data = false) ↔
      (r.geometryType ∉ (["Point", "MultiPoint"] : List String)) := by
    rw [h4]
    constructor
    · intro hf
      exact of_decide_eq_false hf
    · intro hn
      exact decide_eq_false hn
  simp only [Collection.validate_record_geometry, hs]
  split_ifs with hA hB hB
  · rw [h1, h2]
  · exact absurd ⟨hA.1, hiff.mp hA.2⟩ hB
  · exact absurd ⟨hB.1, hiff.mpr hB.2⟩ hA
  · rw [h3]

/-- Claim C4, counterexample to the claim as stated: under the shapefile
driver with schema geometry `Point`, a `MultiPoint` record matches once
the `Multi` prefix is disregarded on both sides, yet the validator
rejects it — the special case is skipped whenever the record's geometry
type contains `"Point"`. -/
theorem fiona_c4_cex :
    c4x.driverProp = some "ESRI Shapefile" ∧
    c4x.schemaProp = some ⟨"Point", ["name"]⟩ ∧
    specMultiTrim r4x.geometryType = specMultiTrim (spec3DTrim "Point") ∧
    c4x.validate_record_geometry r4x = some false := by
  refine ⟨rfl, rfl, by decide, by decide⟩

/-- Claim C4, witness: the amended theorem applied to a shapefile
collection with schema geometry `Polygon` and a `MultiPolygon` record. -/
theorem fiona_c4_witness :
    c4w.schemaProp = some sch4w ∧
    r4w.geometryType ∈ ogrGeomTypes ∧
    sch4w.geometry ∈ schemaGeomVocab ∧
    c4w.validate_record_geometry r4w =
      some (if c4w.driverProp = some "ESRI Shapefile" ∧
              r4w.geometryType ∉ (["Point", "MultiPoint"] : List String) then
              specMultiTrim r4w.geometryType ==
                specMultiTrim (spec3DTrim sch4w.geometry)
            else r4w.geometryType == spec3DTrim sch4w.geometry) :=
  ⟨rfl, by decide, by decide,
    fiona_c4_theorem c4w r4w sch4w rfl (by decide) (by decide)⟩

/-- Claim C5: when both a bounding-box filter and a mask-geometry filter
are supplied, each of `filter`, `items` and `keys` raises an error and
produces no sequence (the error result carries no iterator and leaves
the collection's stored iterator unchanged). -/
theorem fiona_c5_theorem (c : Collection) (start stop step : Option Int)
    (bbox : Option BBox) (mask : Option Geometry)
    (hb : bbox.isSome = true) (hm : mask.isSome = true) :
    (∃ e, c.filter start stop step bbox mask = Except.error e) ∧
    (∃ e, c.items start stop step bbox mask = Except.error e) ∧
    (∃ e, c.keys start stop step bbox mask = Except.error e) := by
  refine ⟨?_, ?_, ?_⟩
  · unfold Collection.filter
    split_ifs with h1 h2 h3
    · exact ⟨_, rfl⟩
    · exact ⟨_, rfl⟩
    · exact ⟨_, rfl⟩
    · exact absurd ⟨hb, hm⟩ h3
  · unfold Collection.items
    split_ifs with h1 h2 h3
    · exact ⟨_, rfl⟩
    · exact ⟨_, rfl⟩
    · exact ⟨_, rfl⟩
    · exact absurd ⟨hb, hm⟩ h3
  · unfold Collection.keys
    split_ifs with h1 h2 h3
    · exact ⟨_, rfl⟩
    · exact ⟨_, rfl⟩
    · exact ⟨_, rfl⟩
    · exact absurd ⟨hb, hm⟩ h3

/-- Claim C5, witness: the theorem applied to an open read-mode
collection given both filters. -/
theorem fiona_c5_witness :
    (some ((0, 0, 1, 1) : BBox)).isSome = true ∧
    (some (⟨"Polygon"⟩ : Geometry)).isSome = true ∧
    ((∃ e, cR5.filter none none none (some ((0, 0, 1, 1) : BBox))
        (some ⟨"Polygon"⟩) = Except.error e) ∧
     (∃ e, cR5.items none none none (some ((0, 0, 1, 1) : BBox))
        (some ⟨"Polygon"⟩) = Except.error e) ∧
     (∃ e, cR5.keys none none none (some ((0, 0, 1, 1) : BBox))
        (some ⟨"Polygon"⟩) = Except.error e)) :=
  ⟨rfl, rfl, fiona_c5_theorem cR5 none none none
    (some ((0, 0, 1, 1) : BBox)) (some ⟨"Polygon"⟩) rfl rfl⟩

/-- Claim C6, amended: `close()` always leaves the collection closed, the
first close stops the session, and a repeated close is a no-op on
session and iterator state and performs no second session stop — but
because `self.env` is never cleared, every later `close()` call invokes
the runtime-context exit again, re-releasing a context that was already
exited by the first close. -/
theorem fiona_c6_theorem (c : Collection) (s : SessionState) :
    (c.close s).1.closed = true ∧
    (c.closed = true →
      (c.close s).1 = c ∧
      (c.close s).2 = (if c.env then [Effect.envExit] else [])) := by
  constructor
  · unfold Collection.close
    cases hc : c.session with
    | none =>
      split_ifs <;> simp [Collection.closed, hc]
    | some s0 =>
      split_ifs <;> simp [Collection.closed]
  · intro h
    have hc : c.session = none := Option.isNone_iff_eq_none.mp h
    unfold Collection.close
    rw [hc]
    refine ⟨?_, ?_⟩ <;> split_ifs <;> rfl

/-- Claim C6, counterexample to the claim as stated: after a first close
has already exited the runtime context, a second `close()` call exits it
again — the repeated close releases a resource that is no longer held. -/
theorem fiona_c6_cex :
    cOpen6.closed = false ∧
    (cOpen6.close sessA).2 = [Effect.sessionStop, Effect.envExit] ∧
    ((cOpen6.close sessA).1.close sessA).2 = [Effect.envExit] :=
  ⟨rfl, rfl, rfl⟩

/-- Claim C6, witness: the amended theorem applied to an already-closed
collection. -/
theorem fiona_c6_witness :
    (cDone6.close sessA).1.closed = true ∧
    (cDone6.close sessA).1 = cDone6 ∧
    (cDone6.close sessA).2 = (if cDone6.env then [Effect.envExit] else []) :=
  ⟨(fiona_c6_theorem cDone6 sessA).1,
   ((fiona_c6_theorem cDone6 sessA).2 rfl).1,
   ((fiona_c6_theorem cDone6 sessA).2 rfl).2⟩

/-- Claim C7: in write mode, when both a (non-empty) `crs_wkt` string and
a `crs` string are supplied, the WKT string wins: it is stored in
`self._crs_wkt`, `self._crs` stays unset, the `crs` string is never even
validated, and the `crs_wkt` property later reports the stored WKT. -/
theorem fiona_c7_theorem (crs : Option String) (w : String) (c : Collection)
    (hw : w ≠ "") (hc : c._crs_wkt = some w) :
    setWriteCrs crs (some w) = Except.ok (none, some w) ∧
    c.crsWktProp = some w := by
  constructor
  · simp [setWriteCrs, pyTruthy, hw]
  · simp [Collection.crsWktProp, hc]

/-- Claim C7, witness: the theorem applied to a WKT string supplied
together with a `crs` string that would not even pass CRS validation. -/
theorem fiona_c7_witness :
    ("GEOGCS WGS 84" : String) ≠ "" ∧
    c7w._crs_wkt = some "GEOGCS WGS 84" ∧
    (setWriteCrs (some "not a crs") (some "GEOGCS WGS 84") =
      Except.ok (none, some "GEOGCS WGS 84") ∧
    c7w.crsWktProp = some "GEOGCS WGS 84") :=
  ⟨by decide, rfl,
    fiona_c7_theorem (some "not a crs") "GEOGCS WGS 84" c7w (by decide) rfl⟩

lemma startsWithList_eq_iff (l s : List Nat) :
    startsWithList l s = true ↔ l.take s.length = s := by
  induction s generalizing l with
  | nil =>
    cases l <;> simp [startsWithList]
  | cons b bs ih =>
    cases l with
    | nil => simp [startsWithList]
    | cons a as =>
      simp only [startsWithList, Bool.and_eq_true, beq_iff_eq, ih,
        List.length_cons, List.take_succ_cons, List.cons.injEq]

/-- Claim C8: a buffer whose first four bytes are the zip local-file-header
signature is mapped with extension `.zip` and tagged `zip` so the
archive-aware path resolver is used; otherwise a buffer requested with
the GeoJSON driver gets a synthesized `.json` extension, and otherwise
no extension is added. -/
theorem fiona_c8_theorem (buf : List Nat) (driver : Option String) :
    bytesCollectionExt buf driver =
      (if buf.take 4 = zipSig then (".zip", "zip")
       else if driver = some "GeoJSON" then (".json", "")
       else ("", "")) := by
  have hzz : startsWithList zipSig zipSig = true := by decide
  by_cases h : buf.take 4 = zipSig
  · simp [bytesCollectionExt, get_filetype, h, hzz]
  · have hst : startsWithList (buf.take 4) zipSig = false := by
      cases hE : startsWithList (buf.take 4) zipSig with
      | false => rfl
      | true =>
        exfalso
        apply h
        have htk := (startsWithList_eq_iff _ _).mp hE
        simpa [zipSig, List.take_take] using htk
    simp [bytesCollectionExt, get_filetype, hst, h]
    split_ifs <;> rfl

/-- Claim C9: single-record write is exactly the batch write of a
one-element batch — `write(record)` is `writerecords([record])`,
including the same closed/mode checks and the same refresh of the cached
length and bounding extent. -/
theorem fiona_c9_theorem (c : Collection) (r : Record) (s : SessionState) :
    c.write r s = c.writerecords [r] s := rfl

/-- Claim C10, amended: `len` consults the session only when the cached
length is not positive; in that case a negative reported length raises
`TypeError` (so Python treats the collection as a generator of unknown
length) and a non-negative reported length is returned and cached.  When
the cached length is positive it is returned as-is, without consulting
the session — even if the session would now report a negative length. -/
theorem fiona_c10_theorem (c : Collection) (s : SessionState)
    (h : c.session = some s) :
    c.len =
      (if c._len ≤ 0 then
        (if s.length < 0 then
          Except.error (FError.typeError "Layer does not support counting")
         else Except.ok ({ c with _len := s.length }, s.length))
       else Except.ok (c, c._len)) := by
  simp only [Collection.len, h]
  by_cases h1 : c._len ≤ 0
  · simp only [if_pos h1]
  · simp only [if_neg h1]
    have h3 : ¬ c._len < 0 := by omega
    simp [h3]

/-- Claim C10, counterexample to the claim as stated: an open collection
with cached length `5` over a session reporting `-1` returns `5` from
`len` instead of raising `TypeError`, because the session is not
consulted when the cache is positive. -/
theorem fiona_c10_cex :
    cPos10.closed = false ∧
    cPos10.session = some sNeg10 ∧
    sNeg10.length = -1 ∧
    cPos10.len = Except.ok (cPos10, 5) :=
  ⟨rfl, rfl, rfl, rfl⟩

/-- Claim C10, witness: the amended theorem applied to a freshly opened
collection over a session reporting length `7`. -/
theorem fiona_c10_witness :
    c10w.session = some s10w ∧
    c10w.len =
      (if c10w._len ≤ 0 then
        (if s10w.length < 0 then
          Except.error (FError.typeError "Layer does not support counting")
         else Except.ok ({ c10w with _len := s10w.length }, s10w.length))
       else Except.ok (c10w, c10w._len)) :=
  ⟨rfl, fiona_c10_theorem c10w s10w rfl⟩

end Fiona
